import Mathlib

/-!
Verification of the STUDENT-STATISTICS reporting scripts.

This file gives a shallow embedding, in Lean, of the per-record
classification and aggregation logic of the repository's Python scripts
(`skill.py`, `college_skill.py`, `college_counts.py`, `counts.py`,
`education_count.py`, `skill_year.py`, `no_skill.py`,
`skill_from_resume.py`) and proves properties about it.

Modelling conventions:
* A MongoDB document field that may be absent, stored as `null`, or hold a
  list is modelled by `PyList`.  Python's `doc.get(k)` returns `None` both
  when the key is absent and when the stored value is `null`, and both are
  falsy, as is the empty list; `PyList.truthy` captures this.
* Scalar fields read with `doc.get(k)` are modelled with `Option`
  (`none` = absent or `null`).
* A BSON value whose type the scripts inspect (`end_year`) is modelled by
  `PyVal`: `none` (absent/null), an integer, or some non-integer value.
* Python strings handled character by character in the skill importer are
  modelled as `List Char` (accessed from string literals via `String.data`),
  because the importer's split/strip/lower pipeline is the object of study.
* A Python expression that can raise is modelled with `Except String`.
-/

namespace StudentStats

/-- A document field that may be absent, stored as `null`, or hold a list.
`doc.get(k)` yields Python `None` for both `absent` and `null`. -/
inductive PyList (α : Type) where
  | absent : PyList α
  | null : PyList α
  | val : List α → PyList α
deriving DecidableEq

/-- Python truthiness of such a field: only a non-empty list is truthy. -/
def PyList.truthy {α : Type} : PyList α → Bool
  | .val l => !l.isEmpty
  | _ => false

/-- A BSON scalar as the scripts see it after `doc.get(k)`: Python `None`
(absent or stored null), an integer, or some non-integer value (the string
tag only distinguishes values; the scripts never look inside it). -/
inductive PyVal where
  | none : PyVal
  | intVal : Int → PyVal
  | nonInt : String → PyVal
deriving DecidableEq

/-- One element of a student's `skills` array, in the shape the bulk
importer `skill_from_resume.py` writes (name, rating, composite, versions).
The name is a `List Char` because the importer manipulates it
character-wise. -/
structure SkillEntry where
  name : List Char
  rating : Nat
  composite : Option Unit
  versions : List (List Char)
deriving DecidableEq

/-- One element of a student's `education_records` array, with the fields
the scripts read: `is_primary`, `college_name`, `end_year`, `performance`.
`performance : Option Unit` records only whether the value is non-null,
which is all `analyze_student_record` tests (`is not None`). -/
structure EduRecord where
  is_primary : Option Bool
  college_name : Option String
  end_year : PyVal
  performance : Option Unit
deriving DecidableEq

/-- A student document, restricted to the fields the scripts read. -/
structure Student where
  skills : PyList SkillEntry
  projects : PyList Unit
  work_experiences : PyList Unit
  achievements : PyList Unit
  awards : PyList Unit
  education_records : PyList EduRecord
deriving DecidableEq

/-- Python `skills = student.get('skills', []); len(skills) if skills else 0`
(`skill.py` lines 69-70, `college_skill.py` `get_skills_count`). -/
def get_skills_count (student : Student) : Nat :=
  match student.skills with
  | .val l => if l.isEmpty then 0 else l.length
  | _ => 0

/-- The skill-count banding chain of `skill.py` lines 73-82 (identical in
`college_skill.py` lines 70-79 and `skill_year.py` lines 92-101). -/
def skillBand (n : Nat) : String :=
  if n = 0 then "0 skills"
  else if 1 ≤ n ∧ n ≤ 3 then "1-3 skills"
  else if 4 ≤ n ∧ n ≤ 6 then "4-6 skills"
  else if 7 ≤ n ∧ n ≤ 10 then "7-10 skills"
  else "10+ skills"

/-- The five labels used by every skill-distribution script. -/
def skillCategoryLabels : List String :=
  ["0 skills", "1-3 skills", "4-6 skills", "7-10 skills", "10+ skills"]

theorem skillBand_mem (n : Nat) : skillBand n ∈ skillCategoryLabels := by
  unfold skillBand skillCategoryLabels
  split_ifs <;> simp

theorem skillBand_eq_zero_iff (n : Nat) : skillBand n = "0 skills" ↔ n = 0 := by
  unfold skillBand
  split_ifs with h0 h1 h2 h3 <;>
    first
      | exact iff_of_true rfl (by omega)
      | exact iff_of_false (by decide) (by omega)

theorem skillBand_eq_one_three_iff (n : Nat) :
    skillBand n = "1-3 skills" ↔ 1 ≤ n ∧ n ≤ 3 := by
  unfold skillBand
  split_ifs with h0 h1 h2 h3 <;>
    first
      | exact iff_of_true rfl (by omega)
      | exact iff_of_false (by decide) (by omega)

theorem skillBand_eq_four_six_iff (n : Nat) :
    skillBand n = "4-6 skills" ↔ 4 ≤ n ∧ n ≤ 6 := by
  unfold skillBand
  split_ifs with h0 h1 h2 h3 <;>
    first
      | exact iff_of_true rfl (by omega)
      | exact iff_of_false (by decide) (by omega)

theorem skillBand_eq_seven_ten_iff (n : Nat) :
    skillBand n = "7-10 skills" ↔ 7 ≤ n ∧ n ≤ 10 := by
  unfold skillBand
  split_ifs with h0 h1 h2 h3 <;>
    first
      | exact iff_of_true rfl (by omega)
      | exact iff_of_false (by decide) (by omega)

theorem skillBand_eq_over_ten_iff (n : Nat) :
    skillBand n = "10+ skills" ↔ 11 ≤ n := by
  unfold skillBand
  split_ifs with h0 h1 h2 h3 <;>
    first
      | exact iff_of_true rfl (by omega)
      | exact iff_of_false (by decide) (by omega)

/-- C1: for every non-negative integer skill count `n`, `skillBand n` is
exactly one of the five labels, the preimages of the labels are the
contiguous bins `[0,0]`, `[1,3]`, `[4,6]`, `[7,10]`, `[11,∞)` (so the bands
partition `[0,∞)` with no gaps or overlaps), and in particular
`3 ↦ "1-3 skills"`, `4 ↦ "4-6 skills"`, `10 ↦ "7-10 skills"`,
`11 ↦ "10+ skills"`. -/
theorem C1_skill_band_partition (n : Nat) :
    skillBand n ∈ skillCategoryLabels ∧
    (skillBand n = "0 skills" ↔ n = 0) ∧
    (skillBand n = "1-3 skills" ↔ 1 ≤ n ∧ n ≤ 3) ∧
    (skillBand n = "4-6 skills" ↔ 4 ≤ n ∧ n ≤ 6) ∧
    (skillBand n = "7-10 skills" ↔ 7 ≤ n ∧ n ≤ 10) ∧
    (skillBand n = "10+ skills" ↔ 11 ≤ n) ∧
    skillBand 3 = "1-3 skills" ∧ skillBand 4 = "4-6 skills" ∧
    skillBand 10 = "7-10 skills" ∧ skillBand 11 = "10+ skills" :=
  ⟨skillBand_mem n, skillBand_eq_zero_iff n, skillBand_eq_one_three_iff n,
    skillBand_eq_four_six_iff n, skillBand_eq_seven_ten_iff n,
    skillBand_eq_over_ten_iff n, by decide, by decide, by decide, by decide⟩

/-- The education entries of a student, as the `for record in
student.get('education_records', [])` loop sees them (no list when the
field is absent or null). -/
def eduEntries (student : Student) : List EduRecord :=
  match student.education_records with
  | .val l => l
  | _ => []

/-- Test `record.get('is_primary') is True` (`college_counts.py` line 48). -/
def isPrimaryStrict (r : EduRecord) : Bool :=
  match r.is_primary with
  | some true => true
  | _ => false

/-- The college-name string of an entry, `""` when absent/null; Python's
truthiness test `record.get('college_name')` is `collegeNameVal r ≠ ""`. -/
def collegeNameVal (r : EduRecord) : String :=
  r.college_name.getD ""

/-- The loop guard of `get_college_name`: `record.get('is_primary') is True
and record.get('college_name')`. -/
def collegeQualifies (r : EduRecord) : Bool :=
  isPrimaryStrict r && (collegeNameVal r != "")

/-- Function `get_college_name` (`college_counts.py` lines 44-50, identical in
`college_skill.py`): scan the education entries in stored order and return
the college name of the first entry whose `is_primary` is `True` and whose
`college_name` is truthy; otherwise `"Unknown"`.  The `for` loop returning
on the first hit is `List.find?`. -/
def get_college_name (student : Student) : String :=
  if student.education_records.truthy then
    match (eduEntries student).find? collegeQualifies with
    | some r => collegeNameVal r
    | none => "Unknown"
  else "Unknown"

theorem eduEntries_empty_of_not_truthy (student : Student)
    (h : student.education_records.truthy = false) : eduEntries student = [] := by
  unfold eduEntries
  unfold PyList.truthy at h
  match hrec : student.education_records with
  | .absent => rfl
  | .null => rfl
  | .val l => rw [hrec] at h; simpa using h

theorem collegeQualifies_iff (r : EduRecord) :
    collegeQualifies r = true ↔ isPrimaryStrict r = true ∧ collegeNameVal r ≠ "" := by
  unfold collegeQualifies
  rw [Bool.and_eq_true, bne_iff_ne]

/-- A student one of whose education entries is primary with the (non-empty)
college name literally `"Unknown"`. -/
def unknownNamedEntry : EduRecord :=
  { is_primary := some true, college_name := some "Unknown",
    end_year := .none, performance := none }

/-- Concrete record for the C2 counterexample. -/
def unknownNamedStudent : Student :=
  { skills := .absent, projects := .absent, work_experiences := .absent,
    achievements := .absent, awards := .absent,
    education_records := .val [unknownNamedEntry] }

/-- C2 counterexample: the claim's "returns `"Unknown"` if and only if no
education entry has both `is_primary = true` and a non-empty college name"
fails on a record whose primary entry's college name is the literal string
`"Unknown"`: the classifier returns `"Unknown"`, yet an entry with both
properties exists. -/
theorem C2_counterexample :
    get_college_name unknownNamedStudent = "Unknown" ∧
    unknownNamedEntry ∈ eduEntries unknownNamedStudent ∧
    isPrimaryStrict unknownNamedEntry = true ∧
    collegeNameVal unknownNamedEntry ≠ "" := by
  refine ⟨rfl, by decide, rfl, by decide⟩

/-- C2 amended: the college classifier always returns either the college
name of one of the record's education entries or `"Unknown"`; if no
education entry has both `is_primary = true` and a non-empty college name
it returns `"Unknown"`; and conversely, whenever it returns `"Unknown"`,
either no such entry exists or some qualifying entry's college name is
itself the literal string `"Unknown"`. -/
theorem C2_college_classifier (student : Student) :
    (get_college_name student = "Unknown" ∨
      ∃ r ∈ eduEntries student, get_college_name student = collegeNameVal r) ∧
    ((∀ r ∈ eduEntries student,
        ¬(isPrimaryStrict r = true ∧ collegeNameVal r ≠ "")) →
      get_college_name student = "Unknown") ∧
    (get_college_name student = "Unknown" →
      (∀ r ∈ eduEntries student,
        ¬(isPrimaryStrict r = true ∧ collegeNameVal r ≠ "")) ∨
      ∃ r ∈ eduEntries student, isPrimaryStrict r = true ∧
        collegeNameVal r = "Unknown") := by
  unfold get_college_name
  by_cases htr : student.education_records.truthy
  · simp only [htr, if_true]
    match hf : (eduEntries student).find? collegeQualifies with
    | some r =>
      have hmem : r ∈ eduEntries student := List.mem_of_find?_eq_some hf
      have hq : collegeQualifies r = true := List.find?_some hf
      rw [collegeQualifies_iff] at hq
      refine ⟨Or.inr ⟨r, hmem, rfl⟩, ?_, ?_⟩
      · intro hnone
        exact absurd hq (hnone r hmem)
      · intro heq
        exact Or.inr ⟨r, hmem, hq.1, heq⟩
    | none =>
      have hnone := List.find?_eq_none.mp hf
      refine ⟨Or.inl rfl, fun _ => rfl, fun _ => Or.inl ?_⟩
      intro r hr hcontr
      exact absurd ((collegeQualifies_iff r).mpr hcontr) (hnone r hr)
  · have hfalse : student.education_records.truthy = false := by
      simpa using htr
    have hnil := eduEntries_empty_of_not_truthy student hfalse
    simp only [hfalse, Bool.false_eq_true, if_false]
    exact ⟨Or.inl trivial, fun _ => trivial, fun _ => Or.inl (by simp [hnil])⟩

/-- Concrete record with a single non-primary education entry, used by the
C2 witness. -/
def nonPrimaryStudent : Student :=
  { skills := .absent, projects := .absent, work_experiences := .absent,
    achievements := .absent, awards := .absent,
    education_records := .val
      [{ is_primary := some false, college_name := some "MIT",
         end_year := .none, performance := none }] }

/-- Witness for `C2_college_classifier`: on the concrete record with a
single non-primary entry, the discharged hypothesis yields `"Unknown"`. -/
theorem C2_college_classifier_witness :
    get_college_name nonPrimaryStudent = "Unknown" :=
  (C2_college_classifier nonPrimaryStudent).2.1 (by decide)

/-- Test `bool(student.get(k) and len(student.get(k, [])) > 0)` (the presence
test used for projects, work experience, achievements, awards, skills):
the `and` short-circuits on a falsy field (absent, null, or empty list);
otherwise the list is non-empty and its length is positive. -/
def fieldPresent {α : Type} (f : PyList α) : Bool :=
  match f with
  | .val l => !l.isEmpty && decide (0 < l.length)
  | _ => false

/-- The `has_performance` scan of `counts.py` lines 87-92 and
`college_counts.py` lines 78-83: among the education entries, look for one
with `is_primary is True` and a non-null `performance`, breaking on the
first hit. -/
def has_performance (student : Student) : Bool :=
  if student.education_records.truthy then
    (eduEntries student).any (fun r => isPrimaryStrict r && r.performance.isSome)
  else false

/-- The result dictionary of `college_counts.py`'s
`analyze_student_record` (lines 52-87). -/
structure CollegeAnalysis where
  college_name : String
  has_projects : Bool
  has_experience : Bool
  has_achievements : Bool
  has_skills : Bool
  has_grade : Bool
deriving DecidableEq

/-- Function `analyze_student_record` of `college_counts.py` (lines 52-87). -/
def analyze_student_record (student : Student) : CollegeAnalysis :=
  { college_name := get_college_name student
    has_projects := fieldPresent student.projects
    has_experience := fieldPresent student.work_experiences
    has_achievements := fieldPresent student.achievements || fieldPresent student.awards
    has_skills := fieldPresent student.skills
    has_grade := has_performance student }

/-- The result dictionary of `counts.py`'s `analyze_student_record`
(lines 56-99): one `"have"`/`"have_not"` string per feature. -/
structure CountsAnalysis where
  projects : String
  work_experience : String
  achievements : String
  skills : String
  grade : String
deriving DecidableEq

/-- The `"have"`/`"have_not"` tag assigned by each branch of `counts.py`'s
`analyze_student_record`. -/
def haveTag (b : Bool) : String :=
  if b then "have" else "have_not"

/-- Function `analyze_student_record` of `counts.py` (lines 56-99). -/
def counts_analyze_student_record (student : Student) : CountsAnalysis :=
  { projects := haveTag (fieldPresent student.projects)
    work_experience := haveTag (fieldPresent student.work_experiences)
    achievements := haveTag (fieldPresent student.achievements ||
      fieldPresent student.awards)
    skills := haveTag (fieldPresent student.skills)
    grade := haveTag (has_performance student) }

/-- From `counts.py` lines 149-152: the aggregated `"have"` total for one
feature column is the number of classified records carrying that tag. -/
def countsHave (field : CountsAnalysis → String) (records : List Student) : Nat :=
  (records.map counts_analyze_student_record).countP (fun a => field a == "have")

/-- From `counts.py` lines 149-152: the aggregated `"have_not"` total. -/
def countsHaveNot (field : CountsAnalysis → String) (records : List Student) : Nat :=
  (records.map counts_analyze_student_record).countP (fun a => field a == "have_not")

/-- From `college_counts.py` line 141: the classified rows of one college. -/
def collegeRows (c : String) (records : List Student) : List CollegeAnalysis :=
  (records.map analyze_student_record).filter (fun a => a.college_name == c)

/-- From `college_counts.py` line 142: `college_count = len(college_df)`. -/
def collegeTotal (c : String) (records : List Student) : Nat :=
  (collegeRows c records).length

/-- From `college_counts.py` lines 147-155: `college_df[col].sum()` for a
boolean feature column. -/
def collegeHave (c : String) (records : List Student)
    (feat : CollegeAnalysis → Bool) : Nat :=
  (collegeRows c records).countP feat

/-- From `college_counts.py` lines 148-156: the `"No X"` column is
`college_count - college_df[col].sum()`. -/
def collegeHaveNot (c : String) (records : List Student)
    (feat : CollegeAnalysis → Bool) : Nat :=
  collegeTotal c records - collegeHave c records feat

theorem haveTag_beq_have (b : Bool) : (haveTag b == "have") = b := by
  cases b <;> decide

theorem haveTag_beq_have_not (b : Bool) : (haveTag b == "have_not") = !b := by
  cases b <;> decide

theorem countP_haveTag_total {α : Type} (b : α → Bool) (l : List α) :
    l.countP (fun a => haveTag (b a) == "have") +
      l.countP (fun a => haveTag (b a) == "have_not") = l.length := by
  induction l with
  | nil => rfl
  | cons x xs ih =>
    simp only [List.countP_cons, List.length_cons, haveTag_beq_have,
      haveTag_beq_have_not] at ih ⊢
    cases b x <;> simp <;> omega

theorem counts_field_total (f : Student → Bool)
    (field : CountsAnalysis → String)
    (hf : ∀ s, field (counts_analyze_student_record s) = haveTag (f s))
    (records : List Student) :
    countsHave field records + countsHaveNot field records = records.length := by
  unfold countsHave countsHaveNot
  rw [List.countP_map, List.countP_map]
  have h1 : ((fun a => field a == "have") ∘ counts_analyze_student_record) =
      fun s => haveTag (f s) == "have" := funext fun s => by
    simp only [Function.comp_apply, hf]
  have h2 : ((fun a => field a == "have_not") ∘ counts_analyze_student_record) =
      fun s => haveTag (f s) == "have_not" := funext fun s => by
    simp only [Function.comp_apply, hf]
  rw [h1, h2]
  exact countP_haveTag_total f records

/-- C3: for each of the five binary features, the aggregated `"have"`
count plus the `"have_not"` count equals the number of records processed
(`counts.py`), the per-college `Have`/`No` columns of `college_counts.py`
likewise sum to the college's total for every college and feature column,
and the empty input yields all-zero totals. -/
theorem C3_have_plus_have_not (records : List Student) :
    (countsHave CountsAnalysis.projects records +
      countsHaveNot CountsAnalysis.projects records = records.length) ∧
    (countsHave CountsAnalysis.work_experience records +
      countsHaveNot CountsAnalysis.work_experience records = records.length) ∧
    (countsHave CountsAnalysis.achievements records +
      countsHaveNot CountsAnalysis.achievements records = records.length) ∧
    (countsHave CountsAnalysis.skills records +
      countsHaveNot CountsAnalysis.skills records = records.length) ∧
    (countsHave CountsAnalysis.grade records +
      countsHaveNot CountsAnalysis.grade records = records.length) ∧
    (∀ (c : String) (feat : CollegeAnalysis → Bool),
      collegeHave c records feat + collegeHaveNot c records feat =
        collegeTotal c records) ∧
    (countsHave CountsAnalysis.projects [] = 0 ∧
      countsHaveNot CountsAnalysis.projects [] = 0 ∧
      countsHave CountsAnalysis.skills [] = 0 ∧
      countsHaveNot CountsAnalysis.skills [] = 0 ∧
      ∀ c : String, collegeTotal c [] = 0) := by
  refine ⟨?_, ?_, ?_, ?_, ?_, ?_, rfl, rfl, rfl, rfl, fun c => rfl⟩
  · exact counts_field_total (fun s => fieldPresent s.projects) _ (fun s => rfl) records
  · exact counts_field_total (fun s => fieldPresent s.work_experiences) _
      (fun s => rfl) records
  · exact counts_field_total
      (fun s => fieldPresent s.achievements || fieldPresent s.awards) _
      (fun s => rfl) records
  · exact counts_field_total (fun s => fieldPresent s.skills) _ (fun s => rfl) records
  · exact counts_field_total (fun s => has_performance s) _ (fun s => rfl) records
  · intro c feat
    unfold collegeHaveNot collegeHave collegeTotal
    exact Nat.add_sub_cancel' (List.countP_le_length feat)

/-- Truthiness of `edu_record.get("is_primary", False)`
(`education_count.py` line 162, `skill_year.py` line 112): only a stored
`true` passes; absent yields the default `False`, and a stored null is
falsy. -/
def isPrimaryTruthy (r : EduRecord) : Bool :=
  match r.is_primary with
  | some true => true
  | _ => false

/-- The three counters a primary-flagged entry can land in, in
`education_count.py`'s `process_batch`. -/
inductive GradBucket where
  | y2026 : GradBucket
  | y2027 : GradBucket
  | special : GradBucket
deriving DecidableEq

/-- The third branch guard of `education_count.py` line 171:
`end_year is None or not isinstance(end_year, int) or end_year < 2023 or
end_year > 2027` (the `or` short-circuits, so the comparisons only run on
integers). -/
def isSpecialEndYear : PyVal → Bool
  | .none => true
  | .nonInt _ => true
  | .intVal n => decide (n < 2023) || decide (n > 2027)

/-- The `elif` chain of `education_count.py` lines 167-172, as a partial
assignment of an `end_year` value to a counter: `none` means no branch
fires and the entry is counted nowhere. -/
def gradBucket (v : PyVal) : Option GradBucket :=
  if v = .intVal 2026 then some .y2026
  else if v = .intVal 2027 then some .y2027
  else if isSpecialEndYear v then some .special
  else none

/-- A primary-flagged education entry whose end year is the integer 2024. -/
def primary2024Entry : EduRecord :=
  { is_primary := some true, college_name := some "A",
    end_year := .intVal 2024, performance := none }

/-- C4 counterexample: the claim that "no end-year value falls outside all
buckets" fails at the integer end year 2024 (as at 2023 and 2025): the
`elif` chain of `education_count.py` assigns it no bucket, so a primary
entry with it is counted nowhere. -/
theorem C4_counterexample :
    gradBucket (.intVal 2024) = none ∧
    isPrimaryTruthy primary2024Entry = true ∧
    gradBucket primary2024Entry.end_year = none := by
  decide

/-- C4 amended: the graduation-year classifier assigns each end-year value
to at most one bucket (it is a function into `Option GradBucket`):
2026 and 2027 to their exact-match buckets, null, non-integer,
and out-of-range (`< 2023` or `> 2027`) values to the `special` bucket —
but integer end years 2023 through 2025 fall outside all buckets. -/
theorem C4_grad_year_buckets :
    gradBucket (.intVal 2026) = some .y2026 ∧
    gradBucket (.intVal 2027) = some .y2027 ∧
    gradBucket .none = some .special ∧
    (∀ t : String, gradBucket (.nonInt t) = some .special) ∧
    (∀ n : Int, n < 2023 ∨ 2027 < n → gradBucket (.intVal n) = some .special) ∧
    (∀ v : PyVal, gradBucket v = none ↔
      ∃ n : Int, v = .intVal n ∧ 2023 ≤ n ∧ n ≤ 2025) := by
  refine ⟨by decide, by decide, by decide, fun t => rfl, ?_, ?_⟩
  · intro n hn
    unfold gradBucket isSpecialEndYear
    have h26 : ¬(PyVal.intVal n = PyVal.intVal 2026) := by
      intro h; injection h with h; omega
    have h27 : ¬(PyVal.intVal n = PyVal.intVal 2027) := by
      intro h; injection h with h; omega
    rw [if_neg h26, if_neg h27, if_pos]
    simpa using hn
  · intro v
    match v with
    | .none => simp [gradBucket, isSpecialEndYear]
    | .nonInt t => simp [gradBucket, isSpecialEndYear]
    | .intVal n =>
      unfold gradBucket isSpecialEndYear
      split_ifs with h1 h2 h3
      · refine iff_of_false (by simp) ?_
        rintro ⟨m, hm, hl, hr⟩
        injection h1 with h1
        injection hm with hm
        omega
      · refine iff_of_false (by simp) ?_
        rintro ⟨m, hm, hl, hr⟩
        injection h2 with h2
        injection hm with hm
        omega
      · refine iff_of_false (by simp) ?_
        rintro ⟨m, hm, hl, hr⟩
        injection hm with hm
        simp only [Bool.or_eq_true, decide_eq_true_eq] at h3
        omega
      · have hn26 : n ≠ 2026 := fun h => h1 (by rw [h])
        have hn27 : n ≠ 2027 := fun h => h2 (by rw [h])
        simp only [Bool.or_eq_true, decide_eq_true_eq, not_or, not_lt] at h3
        exact iff_of_true rfl ⟨n, rfl, by omega, by omega⟩

/-- Witness for `C4_grad_year_buckets`: the out-of-range year 2030 lands
in the `special` bucket. -/
theorem C4_grad_year_buckets_witness :
    gradBucket (.intVal 2030) = some .special :=
  C4_grad_year_buckets.2.2.2.2.1 2030 (Or.inr (by omega))

/-- One step of the per-student loop of `education_count.py` lines
161-172: a primary-flagged entry increments the counter its `end_year`
buckets into (2026, 2027, special); a non-primary entry, or a primary
entry `gradBucket` leaves uncounted, changes nothing.  The loop does not
break, so the fold visits every entry. -/
def gradStep (g : Nat × Nat × Nat) (r : EduRecord) : Nat × Nat × Nat :=
  if isPrimaryTruthy r then
    match gradBucket r.end_year with
    | some .y2026 => (g.1 + 1, g.2.1, g.2.2)
    | some .y2027 => (g.1, g.2.1 + 1, g.2.2)
    | some .special => (g.1, g.2.1, g.2.2 + 1)
    | none => g
  else g

/-- One student's contribution to the `(2026, 2027, special)` counters in
`education_count.py`'s `process_batch`. -/
def studentGradContribution (entries : List EduRecord) : Nat × Nat × Nat :=
  entries.foldl gradStep (0, 0, 0)

/-- Predicate for an entry counted in the 2026 bucket. -/
def countsAs2026 (r : EduRecord) : Bool :=
  isPrimaryTruthy r && (gradBucket r.end_year == some .y2026)

/-- Predicate for an entry counted in the 2027 bucket. -/
def countsAs2027 (r : EduRecord) : Bool :=
  isPrimaryTruthy r && (gradBucket r.end_year == some .y2027)

/-- Predicate for an entry counted in the special bucket. -/
def countsAsSpecial (r : EduRecord) : Bool :=
  isPrimaryTruthy r && (gradBucket r.end_year == some .special)

theorem foldl_gradStep_eq (l : List EduRecord) (g : Nat × Nat × Nat) :
    List.foldl gradStep g l =
      (g.1 + l.countP countsAs2026, g.2.1 + l.countP countsAs2027,
        g.2.2 + l.countP countsAsSpecial) := by
  induction l generalizing g with
  | nil => simp
  | cons r rest ih =>
    rw [List.foldl_cons, ih]
    unfold gradStep countsAs2026 countsAs2027 countsAsSpecial
    by_cases hp : isPrimaryTruthy r = true
    · rcases hgb : gradBucket r.end_year with _ | b
      · simp [List.countP_cons, hp, hgb]
      · cases b <;>
          simp [List.countP_cons, hp, hgb] <;> omega
    · have hp' : isPrimaryTruthy r = false := by simpa using hp
      simp [List.countP_cons, hp']

theorem studentGradContribution_eq_countP (l : List EduRecord) :
    studentGradContribution l =
      (l.countP countsAs2026, l.countP countsAs2027, l.countP countsAsSpecial) := by
  unfold studentGradContribution
  rw [foldl_gradStep_eq]
  simp

/-- One step of the per-student loop of `skill_year.py` lines 111-121:
each primary-flagged entry whose `end_year` equals 2026 (resp. 2027)
increments that graduate counter; the loop does not break. -/
def skillYearStep (g : Nat × Nat) (r : EduRecord) : Nat × Nat :=
  if isPrimaryTruthy r then
    if r.end_year = .intVal 2026 then (g.1 + 1, g.2)
    else if r.end_year = .intVal 2027 then (g.1, g.2 + 1)
    else g
  else g

/-- One student's contribution to `(grad_2026_count, grad_2027_count)` in
`skill_year.py`. -/
def skillYearGradCounts (entries : List EduRecord) : Nat × Nat :=
  entries.foldl skillYearStep (0, 0)

/-- A primary-flagged entry with end year 2026. -/
def primary2026Entry : EduRecord :=
  { is_primary := some true, college_name := some "A",
    end_year := .intVal 2026, performance := none }

/-- A primary-flagged entry with end year 2027. -/
def primary2027Entry : EduRecord :=
  { is_primary := some true, college_name := some "B",
    end_year := .intVal 2027, performance := none }

/-- A primary-flagged entry with no college name (absent/null). -/
def primaryNoNameEntry : EduRecord :=
  { is_primary := some true, college_name := none,
    end_year := .intVal 2026, performance := none }

/-- A primary-flagged entry whose college name is `"X"`. -/
def primaryNamedXEntry : EduRecord :=
  { is_primary := some true, college_name := some "X",
    end_year := .intVal 2027, performance := none }

/-- A primary-flagged entry whose college name is `"Y"`. -/
def primaryNamedYEntry : EduRecord :=
  { is_primary := some true, college_name := some "Y",
    end_year := .none, performance := none }

/-- A record whose first primary-flagged entry has no college name and
whose second primary-flagged entry is named `"X"`. -/
def twoPrimariesStudent : Student :=
  { skills := .absent, projects := .absent, work_experiences := .absent,
    achievements := .absent, awards := .absent,
    education_records := .val [primaryNoNameEntry, primaryNamedXEntry] }

/-- A record with a nameless primary entry followed by primary entries
named `"X"` and then `"Y"`. -/
def threePrimariesStudent : Student :=
  { skills := .absent, projects := .absent, work_experiences := .absent,
    achievements := .absent, awards := .absent,
    education_records := .val
      [primaryNoNameEntry, primaryNamedXEntry, primaryNamedYEntry] }

/-- C8 counterexample: the claim that the classifier logic uses the first
primary-flagged entry, with later primary-flagged entries never affecting
classification or counts, fails on both sides.  College: on a record
whose FIRST primary-flagged entry has no college name, `get_college_name`
skips it and returns the SECOND primary-flagged entry's name `"X"` — a
later primary-flagged entry determines the classification.  Year counts:
a record with two primary-flagged entries (end years 2026 then 2027)
increments both year counters in `education_count.py` and
`skill_year.py` — the scans do not short-circuit, so the second primary
entry also lands in the aggregates. -/
theorem C8_counterexample :
    get_college_name twoPrimariesStudent = "X" ∧
    (eduEntries twoPrimariesStudent).head? = some primaryNoNameEntry ∧
    isPrimaryStrict primaryNoNameEntry = true ∧
    collegeNameVal primaryNoNameEntry ≠ "X" ∧
    studentGradContribution [primary2026Entry, primary2027Entry] = (1, 1, 0) ∧
    studentGradContribution [primary2026Entry] = (1, 0, 0) ∧
    skillYearGradCounts [primary2026Entry, primary2027Entry] = (1, 1) ∧
    skillYearGradCounts [primary2026Entry] = (1, 0) := by
  decide

/-- C8 amended: for every record, the college classifier uses the first
entry in storage order that is both primary-flagged and carries a
non-empty college name: entries before it (which all fail that test) are
skipped and entries after it never affect the college classification —
the scan returns on the first such match.  The graduation-year scans of
`education_count.py` and `skill_year.py`, however, iterate over every
education entry without breaking: each primary-flagged entry contributes
to the counters, so the contribution of a list of entries is the sum of
the contributions of its parts. -/
theorem C8_first_primary_wins (s : Student) (pre post : List EduRecord)
    (r : EduRecord) (l1 l2 : List EduRecord) :
    (s.education_records = .val (pre ++ r :: post) →
      (∀ e ∈ pre, collegeQualifies e = false) →
      collegeQualifies r = true →
      get_college_name s = collegeNameVal r) ∧
    (studentGradContribution (l1 ++ l2)).1 =
      (studentGradContribution l1).1 + (studentGradContribution l2).1 ∧
    (studentGradContribution (l1 ++ l2)).2.1 =
      (studentGradContribution l1).2.1 + (studentGradContribution l2).2.1 ∧
    (studentGradContribution (l1 ++ l2)).2.2 =
      (studentGradContribution l1).2.2 + (studentGradContribution l2).2.2 := by
  refine ⟨?_, ?_, ?_, ?_⟩
  · intro hrec hpre hq
    unfold get_college_name
    rw [hrec]
    have htr : (PyList.val (pre ++ r :: post)).truthy = true := by
      simp [PyList.truthy]
    rw [if_pos htr]
    have hent : eduEntries s = pre ++ r :: post := by
      unfold eduEntries; rw [hrec]
    have hnone : pre.find? collegeQualifies = none :=
      List.find?_eq_none.mpr (fun e he => by simp [hpre e he])
    rw [hent, List.find?_append, hnone, List.find?_cons_of_pos _ hq]
    rfl
  · simp [studentGradContribution_eq_countP, List.countP_append]
  · simp [studentGradContribution_eq_countP, List.countP_append]
  · simp [studentGradContribution_eq_countP, List.countP_append]

/-- Witness for `C8_first_primary_wins`: on the record whose entries are a
nameless primary entry, then primary `"X"`, then primary `"Y"`, the
classifier skips the nameless entry and returns `"X"`, unaffected by the
later `"Y"` entry. -/
theorem C8_first_primary_wins_witness :
    get_college_name threePrimariesStudent = collegeNameVal primaryNamedXEntry :=
  (C8_first_primary_wins threePrimariesStudent [primaryNoNameEntry]
    [primaryNamedYEntry] primaryNamedXEntry [] []).1 rfl (by decide) (by decide)

/-- From `no_skill.py` line 142:
`not student.get('skills') or len(student.get('skills', [])) == 0`.
The `or` short-circuits, so `len` only runs on a truthy (non-empty) list;
for `null` the second disjunct is never reached (it would raise on
`len(None)`), which the `true` arm mirrors. -/
def has_no_skills (student : Student) : Bool :=
  !student.skills.truthy ||
    (match student.skills with
     | .val l => decide (l.length = 0)
     | _ => true)

/-- A field in one of the three "has none" states the scripts must treat
alike: absent, stored null, or an empty collection. -/
def hasNoneState {α : Type} (x : PyList α) : Prop :=
  x = .absent ∨ x = .null ∨ x = .val []

/-- C9: for each measured feature collection (skills, projects, work
experiences, achievements, education records), the classifier yields the
same classification whether the field is absent, null, or an empty
collection; likewise the zero-skills test of `no_skill.py`.  (The
embedded classifiers are total Lean functions, so classification is
defined — never raises — on every well-formed record by construction.) -/
theorem C9_absent_null_empty_equiv (s : Student) :
    (∀ x y : PyList SkillEntry, hasNoneState x → hasNoneState y →
      analyze_student_record { s with skills := x } =
        analyze_student_record { s with skills := y } ∧
      has_no_skills { s with skills := x } =
        has_no_skills { s with skills := y }) ∧
    (∀ x y : PyList Unit, hasNoneState x → hasNoneState y →
      analyze_student_record { s with projects := x } =
        analyze_student_record { s with projects := y }) ∧
    (∀ x y : PyList Unit, hasNoneState x → hasNoneState y →
      analyze_student_record { s with work_experiences := x } =
        analyze_student_record { s with work_experiences := y }) ∧
    (∀ x y : PyList Unit, hasNoneState x → hasNoneState y →
      analyze_student_record { s with achievements := x } =
        analyze_student_record { s with achievements := y }) ∧
    (∀ x y : PyList Unit, hasNoneState x → hasNoneState y →
      analyze_student_record { s with awards := x } =
        analyze_student_record { s with awards := y }) ∧
    (∀ x y : PyList EduRecord, hasNoneState x → hasNoneState y →
      analyze_student_record { s with education_records := x } =
        analyze_student_record { s with education_records := y }) := by
  refine ⟨?_, ?_, ?_, ?_, ?_, ?_⟩ <;>
    rintro x y (rfl | rfl | rfl) (rfl | rfl | rfl) <;>
      first
        | exact ⟨rfl, rfl⟩
        | rfl

/-- A stored skill entry named `java`, used by concrete test records. -/
def javaSkill : SkillEntry :=
  { name := ['j', 'a', 'v', 'a'], rating := 2, composite := none,
    versions := [] }

/-- A concrete student whose every list field carries data, used by the
C9 witness. -/
def populatedStudent : Student :=
  { skills := .val [javaSkill],
    projects := .val [()], work_experiences := .val [()],
    achievements := .val [()], awards := .val [()],
    education_records := .val [primary2026Entry] }

/-- Witness for `C9_absent_null_empty_equiv`: on a concrete record,
null skills and an empty skills list classify identically. -/
theorem C9_absent_null_empty_equiv_witness :
    analyze_student_record { populatedStudent with skills := .null } =
      analyze_student_record { populatedStudent with skills := .val [] } :=
  ((C9_absent_null_empty_equiv populatedStudent).1 .null (.val [])
    (Or.inr (Or.inl rfl)) (Or.inr (Or.inr rfl))).1

/-- ASCII whitespace, for Python's `str.strip()`. -/
def isStripChar (c : Char) : Bool :=
  c = ' ' || c = '\t' || c = '\n' || c = '\r'

/-- Python `str.strip()`: drop leading and trailing whitespace. -/
def pyStrip (s : List Char) : List Char :=
  ((s.dropWhile isStripChar).reverse.dropWhile isStripChar).reverse

/-- Python `s.split(',')`: split at every comma; `n` commas yield `n + 1`
pieces, empty pieces included (so a trailing comma yields a trailing empty
piece). -/
def splitOnComma : List Char → List (List Char)
  | [] => [[]]
  | c :: rest =>
    match splitOnComma rest with
    | [] => [[]]
    | t :: ts => if c = ',' then [] :: t :: ts else (c :: t) :: ts

/-- Python `str.lower()` on an ASCII letter. -/
def lowerChar (c : Char) : Char :=
  if 'A' ≤ c ∧ c ≤ 'Z' then Char.ofNat (c.toNat + 32) else c

/-- Python `str.lower()`. -/
def pyLower (s : List Char) : List Char :=
  s.map lowerChar

/-- From `skill_from_resume.py` line 37:
`[skill.strip() for skill in skills_string.split(',') if skill.strip()]` —
split on the comma, strip each token, keep only truthy (non-empty)
stripped tokens. -/
def parseSkillNames (s : List Char) : List (List Char) :=
  ((splitOnComma s).map pyStrip).filter (fun t => !t.isEmpty)

/-- From `skill_from_resume.py` lines 41-49: the fixed-shape entry built for
one token — lower-cased name, constant default rating 2, empty
sub-fields. -/
def mkSkillEntry (t : List Char) : SkillEntry :=
  { name := pyLower t, rating := 2, composite := none, versions := [] }

/-- From `skill_from_resume.py` lines 40-49: the full `skills_array` built from
one skills string. -/
def skillsArray (s : List Char) : List SkillEntry :=
  (parseSkillNames s).map mkSkillEntry

/-- C5 counterexample: on the claimed input `"Python, python, SQL,"` the
importer produces THREE entries, named `python`, `python`, `sql` — the
duplicate token is NOT collapsed (the code never deduplicates), so the
claimed two-entry result is wrong. -/
theorem C5_counterexample :
    (skillsArray "Python, python, SQL,".data).map SkillEntry.name =
      ["python".data, "python".data, "sql".data] ∧
    (skillsArray "Python, python, SQL,".data).length = 3 ∧
    (skillsArray "Python, python, SQL,".data).length ≠ 2 := by
  decide

/-- C5 amended: on input `"Python, python, SQL,"` the importer produces
three entries named `python`, `python`, `sql` (duplicates kept, the empty
trailing token dropped), each with the fixed default rating 2 and empty
sub-fields; in general it splits on the comma, trims and lower-cases each
token, and discards empty tokens. -/
theorem C5_importer_tokens (s : List Char) :
    (skillsArray "Python, python, SQL,".data).map SkillEntry.name =
      ["python".data, "python".data, "sql".data] ∧
    (skillsArray s).map SkillEntry.name = (parseSkillNames s).map pyLower ∧
    (∀ e ∈ skillsArray s,
      e.rating = 2 ∧ e.composite = none ∧ e.versions = []) ∧
    [] ∉ parseSkillNames s ∧
    (∀ t ∈ parseSkillNames s, t ∈ (splitOnComma s).map pyStrip) ∧
    (skillsArray s).length = (parseSkillNames s).length := by
  refine ⟨by decide, ?_, ?_, ?_, ?_, ?_⟩
  · simp [skillsArray, List.map_map, mkSkillEntry, Function.comp]
  · intro e he
    rcases List.mem_map.mp he with ⟨t, ht, rfl⟩
    exact ⟨rfl, rfl, rfl⟩
  · intro hmem
    have := (List.mem_filter.mp hmem).2
    simp at this
  · intro t ht
    exact (List.mem_filter.mp ht).1
  · simp [skillsArray]

/-- Witness for `C5_importer_tokens`: on the concrete input every entry
carries rating 2 and empty sub-fields, and the empty token is discarded. -/
theorem C5_importer_tokens_witness :
    (mkSkillEntry "SQL".data).rating = 2 ∧
    [] ∉ parseSkillNames "Python, python, SQL,".data :=
  ⟨((C5_importer_tokens "Python, python, SQL,".data).2.2.1
      (mkSkillEntry "SQL".data) (by decide)).1,
    (C5_importer_tokens "Python, python, SQL,".data).2.2.2.1⟩

/-- From `education_count.py` lines 119-120: the guarded percentage helper. -/
def safe_percentage (num denom : ℚ) : ℚ :=
  if denom > 0 then num / denom * 100 else 0

/-- Python's `/`: raises `ZeroDivisionError` on a zero denominator. -/
def pyDiv (a b : ℚ) : Except String ℚ :=
  if b = 0 then .error "ZeroDivisionError" else .ok (a / b)

/-- From `skill.py`: lines 73-82 tallies per category; line 108-110 then computes
`(count / processed_count) * 100` for each of the five categories with no
zero guard.  The count of records in one category. -/
def skillCategoryCount (records : List Student) (label : String) : Nat :=
  records.countP (fun s => skillBand (get_skills_count s) == label)

/-- The summary loop of `skill.py` lines 108-110: one unguarded
percentage per category. -/
def skillDistributionSummary (records : List Student) :
    Except String (List (String × ℚ)) :=
  skillCategoryLabels.mapM (fun label => do
    let q ← pyDiv (skillCategoryCount records label : ℚ) (records.length : ℚ)
    pure (label, q * 100))

/-- From `no_skill.py` lines 108-111: four unguarded percentage computations
over `total_students`. -/
def noSkillPercentBreakdown (eduC projC workC resC total : Nat) :
    Except String (List ℚ) := do
  let a ← pyDiv (eduC : ℚ) (total : ℚ)
  let b ← pyDiv (projC : ℚ) (total : ℚ)
  let c ← pyDiv (workC : ℚ) (total : ℚ)
  let d ← pyDiv (resC : ℚ) (total : ℚ)
  pure [a * 100, b * 100, c * 100, d * 100]

/-- C6 counterexample: the zero-record run does NOT produce its summary in
`skill.py` and `no_skill.py` — their percentage computations are
unguarded, so on zero processed records they raise `ZeroDivisionError`
(caught only by the scripts' top-level handler, which abandons the
summary). -/
theorem C6_counterexample :
    skillDistributionSummary [] = .error "ZeroDivisionError" ∧
    noSkillPercentBreakdown 0 0 0 0 0 = .error "ZeroDivisionError" := by
  constructor <;> rfl

/-- C6 amended: the percentage computations of `education_count.py` go
through `safe_percentage`, which returns 0 on a zero (or negative)
denominator and the true ratio otherwise, so its zero-record summary is
defined; but the percentage loops of `skill.py` and `no_skill.py` divide
by the total without a guard and fail with `ZeroDivisionError` on a
zero-record run. -/
theorem C6_percentage_guards (num denom : ℚ) :
    safe_percentage num 0 = 0 ∧
    (0 < denom → safe_percentage num denom = num / denom * 100) ∧
    skillDistributionSummary [] = .error "ZeroDivisionError" ∧
    noSkillPercentBreakdown 0 0 0 0 0 = .error "ZeroDivisionError" := by
  refine ⟨?_, ?_, rfl, rfl⟩
  · simp [safe_percentage]
  · intro h
    simp [safe_percentage, h]

/-- Witness for `C6_percentage_guards`: at numerator 50 and denominator
200 the guard passes and the ratio is computed. -/
theorem C6_percentage_guards_witness :
    (0 : ℚ) < 200 ∧ safe_percentage 50 200 = 50 / 200 * 100 :=
  ⟨by norm_num, (C6_percentage_guards 50 200).2.1 (by norm_num)⟩

/-- One CSV row of `combined_skill_data.csv`: a `student_id` cell and a
`skills` cell (`none` models a missing/NaN cell, which `pd.isna`
detects). -/
structure CsvRow where
  student_id : List Char
  skills : Option (List Char)
deriving DecidableEq

/-- Validity of a string as a BSON ObjectId.  Modelled from the external
`bson` library (not part of this repository): `ObjectId(s)` accepts
exactly a 24-character hexadecimal string and raises otherwise. -/
def isValidObjectId (s : List Char) : Bool :=
  decide (s.length = 24) &&
    s.all (fun c => c.isDigit || ('a' ≤ c && c ≤ 'f') || ('A' ≤ c && c ≤ 'F'))

/-- The student store, keyed by the ObjectId hex string, holding each
document's `skills` array (the only field the importer touches). -/
abbrev StudentStore := List (List Char × List SkillEntry)

/-- Model of `collection.update_one({"_id": oid}, {"$set": {"skills": arr}})`:
replace the skills of the matched document; `modified_count` is 1 exactly
when a matched document actually changed (Mongo reports 0 both when no
document matches and when the stored value already equals the update). -/
def update_one (store : StudentStore) (oid : List Char)
    (skills : List SkillEntry) : StudentStore × Nat :=
  (store.map (fun kv => if kv.1 = oid then (kv.1, skills) else kv),
    if store.any (fun kv => kv.1 == oid && kv.2 != skills) then 1 else 0)

/-- The importer's running state: the store plus the two counters
(`update_count`, `error_count`) of `skill_from_resume.py` lines 23-24. -/
structure ImportState where
  store : StudentStore
  update_count : Nat
  error_count : Nat
deriving DecidableEq

/-- One iteration of the row loop of `skill_from_resume.py` lines 27-69:
skip a missing or blank skills cell untouched; on a malformed ObjectId the
raised exception is caught and `error_count` incremented; otherwise run
the update, incrementing `update_count` only when `modified_count > 0`
(a row matching no document only prints a message). -/
def processRow (acc : ImportState) (row : CsvRow) : ImportState :=
  match row.skills with
  | none => acc
  | some s =>
    if (pyStrip s).isEmpty then acc
    else if isValidObjectId row.student_id then
      let res := update_one acc.store row.student_id (skillsArray s)
      if 0 < res.2 then
        { store := res.1, update_count := acc.update_count + 1,
          error_count := acc.error_count }
      else
        { store := res.1, update_count := acc.update_count,
          error_count := acc.error_count }
    else
      { store := acc.store, update_count := acc.update_count,
        error_count := acc.error_count + 1 }

/-- The whole run of `process_skills_csv_to_mongodb` over the parsed CSV
rows, starting from zero counters. -/
def process_skills_csv (rows : List CsvRow) (store : StudentStore) :
    ImportState :=
  rows.foldl processRow { store := store, update_count := 0, error_count := 0 }

theorem processRow_error_shift (acc : ImportState) (row : CsvRow) (k : Nat) :
    processRow { acc with error_count := acc.error_count + k } row =
      { processRow acc row with
        error_count := (processRow acc row).error_count + k } := by
  unfold processRow
  cases hr : row.skills with
  | none => rfl
  | some s =>
    simp only
    split_ifs <;> (first | (simp [ImportState.mk.injEq]; omega) | simp [ImportState.mk.injEq])

theorem foldl_processRow_error_shift (rows : List CsvRow)
    (acc : ImportState) (k : Nat) :
    List.foldl processRow { acc with error_count := acc.error_count + k } rows =
      { List.foldl processRow acc rows with
        error_count := (List.foldl processRow acc rows).error_count + k } := by
  induction rows generalizing acc with
  | nil => rfl
  | cons r rs ih =>
    rw [List.foldl_cons, List.foldl_cons, processRow_error_shift, ih]

/-- C7: a row whose identifier cannot be parsed as an ObjectId is counted
as one per-row error and does not abort the batch: the run over the rows
with the bad row inserted anywhere equals the run without it, except that
the reported `error_count` is one higher — every other row is still
processed and the final state reports both counters. -/
theorem C7_row_failure_does_not_abort (pre post : List CsvRow)
    (store : StudentStore) (bad : CsvRow) (s : List Char)
    (hs : bad.skills = some s) (hns : (pyStrip s).isEmpty = false)
    (hbad : isValidObjectId bad.student_id = false) :
    process_skills_csv (pre ++ bad :: post) store =
      { process_skills_csv (pre ++ post) store with
        error_count := (process_skills_csv (pre ++ post) store).error_count + 1 } := by
  unfold process_skills_csv
  rw [List.foldl_append, List.foldl_append, List.foldl_cons]
  have hstep :
      processRow (List.foldl processRow
          { store := store, update_count := 0, error_count := 0 } pre) bad =
        { List.foldl processRow
            { store := store, update_count := 0, error_count := 0 } pre with
          error_count := (List.foldl processRow
            { store := store, update_count := 0, error_count := 0 } pre).error_count + 1 } := by
    unfold processRow
    rw [hs]
    simp only [hns, hbad]
    rfl
  rw [hstep, foldl_processRow_error_shift]

/-- A row whose `student_id` is not a valid ObjectId. -/
def badIdRow : CsvRow :=
  { student_id := "xyz".data, skills := some "Python".data }

/-- A row with a valid 24-hex-character `student_id`. -/
def goodRow : CsvRow :=
  { student_id := "507f1f77bcf86cd799439011".data,
    skills := some "Python".data }

/-- A row whose skills cell is blank after stripping. -/
def blankRow : CsvRow :=
  { student_id := "507f1f77bcf86cd799439011".data, skills := some "   ".data }

/-- A row whose skills cell is missing (NaN). -/
def naRow : CsvRow :=
  { student_id := "507f1f77bcf86cd799439011".data, skills := none }

/-- A one-document store whose document currently holds the `java`
skill. -/
def demoStore : StudentStore :=
  [("507f1f77bcf86cd799439011".data, [javaSkill])]

/-- Witness for `C7_row_failure_does_not_abort`: inserting the malformed
row before a good row only raises the reported error count by one. -/
theorem C7_row_failure_does_not_abort_witness :
    process_skills_csv [badIdRow, goodRow] demoStore =
      { process_skills_csv [goodRow] demoStore with
        error_count := (process_skills_csv [goodRow] demoStore).error_count + 1 } :=
  C7_row_failure_does_not_abort [] [goodRow] demoStore badIdRow "Python".data
    rfl (by decide) (by decide)

/-- The demonstration batch for C10: a blank row, a malformed-id row, a
row matching no document, and a good row. -/
def demoRows : List CsvRow :=
  [blankRow, badIdRow,
    { student_id := "00000000000000000000aaaa".data,
      skills := some "Python".data },
    goodRow]

/-- C10: a row whose skills cell is missing or blank, and a row whose
valid identifier matches no document in the store, are skipped without
any store update and without touching either counter; consequently the
reported `update_count + error_count` can be strictly less than the
number of input rows. -/
theorem C10_skipped_rows :
    (∀ (acc : ImportState) (row : CsvRow), row.skills = none →
      processRow acc row = acc) ∧
    (∀ (acc : ImportState) (row : CsvRow) (s : List Char),
      row.skills = some s → (pyStrip s).isEmpty = true →
      processRow acc row = acc) ∧
    (∀ (acc : ImportState) (row : CsvRow) (s : List Char),
      row.skills = some s → (pyStrip s).isEmpty = false →
      isValidObjectId row.student_id = true →
      (∀ kv ∈ acc.store, kv.1 ≠ row.student_id) →
      processRow acc row = acc) ∧
    (process_skills_csv demoRows demoStore).update_count +
      (process_skills_csv demoRows demoStore).error_count < demoRows.length := by
  refine ⟨?_, ?_, ?_, by decide⟩
  · intro acc row hr
    unfold processRow
    rw [hr]
  · intro acc row s hr hb
    unfold processRow
    rw [hr]
    simp [hb]
  · intro acc row s hr hb hid hnone
    have hany : acc.store.any
        (fun kv => kv.1 == row.student_id && kv.2 != skillsArray s) = false := by
      rw [List.any_eq_false]
      intro kv hkv
      simp only [Bool.and_eq_true, beq_iff_eq, bne_iff_ne, not_and]
      intro hk
      exact absurd hk (hnone kv hkv)
    have hmap : acc.store.map
        (fun kv => if kv.1 = row.student_id then (kv.1, skillsArray s) else kv) =
        acc.store := by
      conv_rhs => rw [← List.map_id acc.store]
      apply List.map_congr_left
      intro kv hkv
      rw [if_neg (hnone kv hkv)]
      rfl
    unfold processRow
    rw [hr]
    simp [hb, hid, update_one, hany, hmap]

/-- Witness for `C10_skipped_rows`: a row with a missing skills cell
leaves the state untouched. -/
theorem C10_skipped_rows_witness :
    processRow { store := demoStore, update_count := 0, error_count := 0 } naRow =
      { store := demoStore, update_count := 0, error_count := 0 } :=
  C10_skipped_rows.1 { store := demoStore, update_count := 0, error_count := 0 }
    naRow rfl

end StudentStats
